import Mathlib

/-!
Shallow embedding of the SiS:TER corpus explorer (src/app.py): the data
model of annotation records, the filter predicate
`paragraph_matches_filters`, the 20-record truncation, the pagination
arithmetic, the CSV / JSON-lines export, and the word-cloud frequency
mapping.  Verification of the specification claims follows the
definitions.

Modelling conventions:
- Python dictionaries with `.get(key, default)` access become structures
  with `Option` fields; the `.get` default is applied at the access site.
- Python direct indexing `d[key]` (which raises `KeyError` on absence)
  becomes an `Option`-returning function (`none` models the raised error).
- Machine strings and integers are Lean `String` and `Int`.
- The sequential early-return `if ... : return False` chain of
  `paragraph_matches_filters` is written as the conjunction of one named
  predicate per filter dimension; the code is pure, so the two forms
  agree.
-/

/-- A raw JSON scalar stored in a volume field: an integer, a string, or
null.  `safe_int` (below) models Python `int(value)` with the
`ValueError` / `TypeError` fallback of src/app.py lines 89-93. -/
inductive RawVal where
  | vint (n : Int)
  | vstr (s : String)
  | vnull
  deriving DecidableEq

/-- `annotations.paragraph_level.volume`: the three loudness scores.
Each key may be absent from the JSON object. -/
structure Volume where
  human : Option RawVal
  nature : Option RawVal
  artificial : Option RawVal
  deriving DecidableEq

/-- `annotations.paragraph_level`: sound type and volume block. -/
structure ParaLevel where
  sound_type : Option String
  volume : Option Volume
  deriving DecidableEq

/-- One token-level tag.  The source keys are `text`, `lemma`, `labels`,
`start`, `end`; `lemma` and `end` are Lean keywords, so the fields are
named `lemma_` and `stop`. -/
structure Token where
  text : String
  lemma_ : String
  labels : List String
  start : Nat
  stop : Nat
  deriving DecidableEq

/-- `annotations.token_level`: holds the list of token tags under the
`labels` key. -/
structure TokenLevel where
  labels : Option (List Token)
  deriving DecidableEq

/-- The `annotations` block of a record. -/
structure AnnotationBlock where
  token_level : Option TokenLevel
  paragraph_level : Option ParaLevel
  deriving DecidableEq

/-- The `metadata` block of a record. -/
structure Metadata where
  author : Option String
  title : Option String
  year : Option Int
  deriving DecidableEq

/-- One AnnotationRecord: a paragraph of a story.  `story_id`, `part` and
`text` are indexed directly by the display and export code, so they are
required fields; `metadata` and `annotations` are accessed with `.get`
and may be absent. -/
structure Entry where
  story_id : String
  part : Nat
  text : String
  lemmatized_text : String
  metadata : Option Metadata
  annotations : Option AnnotationBlock
  deriving DecidableEq

/-- The sidebar filter state: `year_start`, `year_end`,
`selected_sound_types`, `selected_labels`, and the three volume range
sliders (each an inclusive pair). -/
structure FilterConfig where
  year_start : Int
  year_end : Int
  selected_sound_types : List String
  selected_labels : List String
  volume_human : Int × Int
  volume_nature : Int × Int
  volume_artificial : Int × Int
  deriving DecidableEq

/-- `entry.get("metadata", {}).get("year")` (src/app.py lines 98-99). -/
def year_of (e : Entry) : Option Int :=
  e.metadata.bind Metadata.year

/-- `entry.get("annotations", {}).get("paragraph_level", {}).get("sound_type")`
(line 104). -/
def sound_type_of (e : Entry) : Option String :=
  (e.annotations.bind AnnotationBlock.paragraph_level).bind ParaLevel.sound_type

/-- `entry.get("annotations", {}).get("paragraph_level", {}).get("volume", {})`
(line 108). -/
def volume_of (e : Entry) : Option Volume :=
  (e.annotations.bind AnnotationBlock.paragraph_level).bind ParaLevel.volume

/-- `volume.get("human", 0)` (line 109): the raw value, defaulting to the
integer 0 when the key (or the whole volume block) is absent. -/
def vol_raw_human (e : Entry) : RawVal :=
  ((volume_of e).bind Volume.human).getD (RawVal.vint 0)

/-- `volume.get("nature", 0)` (line 110). -/
def vol_raw_nature (e : Entry) : RawVal :=
  ((volume_of e).bind Volume.nature).getD (RawVal.vint 0)

/-- `volume.get("artificial", 0)` (line 111). -/
def vol_raw_artificial (e : Entry) : RawVal :=
  ((volume_of e).bind Volume.artificial).getD (RawVal.vint 0)

/-- `entry.get("annotations", {}).get("token_level", {}).get("labels", [])`
(line 122). -/
def token_labels_of (e : Entry) : List Token :=
  ((e.annotations.bind AnnotationBlock.token_level).bind TokenLevel.labels).getD []

/-- `{label for t in token_labels for label in t.get("labels", [])}`
(line 123): the labels of all tokens, flattened.  Set membership in the
source equals list membership here. -/
def paragraph_labels_of (e : Entry) : List String :=
  (token_labels_of e).flatMap Token.labels

/-- `safe_int` (src/app.py lines 89-93): Python `int(value)`, returning 0
on `ValueError` / `TypeError`.  A string is parsed as a decimal integer;
an unparseable string or a null gives 0. -/
def safe_int : RawVal → Int
  | .vint n => n
  | .vstr s => (s.toInt?).getD 0
  | .vnull => 0

/-- Python membership `x in selected` where `x` may be `None` (a missing
sound type): `None` is not a member of any list of strings. -/
def opt_mem : Option String → List String → Bool
  | none, _ => false
  | some s, sel => decide (s ∈ sel)

/-- Lines 99-102: `if year is None or not (year_start <= year <= year_end):
return False`. -/
def year_passes (ys ye : Int) : Option Int → Bool
  | none => false
  | some y => decide (ys ≤ y) && decide (y ≤ ye)

/-- Lines 104-106: `if selected_sound_types and para_sound_type not in
selected_sound_types: return False`.  An empty selection short-circuits
the Python `and`, so it never excludes. -/
def sound_type_passes (sel : List String) (st : Option String) : Bool :=
  if sel.isEmpty then true else opt_mem st sel

/-- Lines 113-118: one volume range check `lo <= v <= hi`. -/
def volume_in (r : Int × Int) (v : Int) : Bool :=
  decide (r.1 ≤ v) && decide (v ≤ r.2)

/-- Lines 121-125: `if selected_labels: ... if not any(label in
paragraph_labels for label in selected_labels): return False`. -/
def labels_pass (sel : List String) (para_labels : List String) : Bool :=
  if sel.isEmpty then true
  else sel.any (fun label => decide (label ∈ para_labels))

/-- `paragraph_matches_filters` (src/app.py lines 97-127), written as the
conjunction of its early-return checks in source order. -/
def paragraph_matches_filters (cfg : FilterConfig) (e : Entry) : Bool :=
  year_passes cfg.year_start cfg.year_end (year_of e) &&
  sound_type_passes cfg.selected_sound_types (sound_type_of e) &&
  volume_in cfg.volume_human (safe_int (vol_raw_human e)) &&
  volume_in cfg.volume_nature (safe_int (vol_raw_nature e)) &&
  volume_in cfg.volume_artificial (safe_int (vol_raw_artificial e)) &&
  labels_pass cfg.selected_labels (paragraph_labels_of e)

/-- Line 130: `[a for a in annotations if paragraph_matches_filters(a)]`. -/
def filtered_annotations (cfg : FilterConfig) (anns : List Entry) : List Entry :=
  anns.filter (paragraph_matches_filters cfg)

/-- Line 131. -/
def N_DISPLAY : Nat := 20

/-- Line 132: `filtered_annotations = filtered_annotations[:N_DISPLAY]`. -/
def displayed_annotations (cfg : FilterConfig) (anns : List Entry) : List Entry :=
  (filtered_annotations cfg anns).take N_DISPLAY

/-- C1: for every filter configuration and every input list, the filtered
result (and its displayed 20-record truncation) is an ordered subsequence
of the input: no record is fabricated and the relative order is
preserved. -/
theorem filtered_is_ordered_subsequence (cfg : FilterConfig) (anns : List Entry) :
    (filtered_annotations cfg anns).Sublist anns ∧
    (displayed_annotations cfg anns).Sublist anns := by
  constructor
  · exact List.filter_sublist anns
  · exact (List.take_sublist _ _).trans (List.filter_sublist anns)

/-- Line 139: `PAGE_SIZE = 1`. -/
def PAGE_SIZE : Nat := 1

/-- Line 140: `total_pages = len(filtered_annotations) // PAGE_SIZE +
(len(filtered_annotations) % PAGE_SIZE > 0)`, computed on the already
truncated list; the Python boolean adds 1 when true. -/
def total_pages (displayed : List Entry) : Nat :=
  displayed.length / PAGE_SIZE + (if displayed.length % PAGE_SIZE > 0 then 1 else 0)

/-- Lines 162-163: the "Previous" button decrements the page only when
`page_number > 1`. -/
def prev_click (page : Nat) : Nat :=
  if page > 1 then page - 1 else page

/-- Lines 166-167: the "Next" button increments the page only when
`page_number < total_pages`. -/
def next_click (total page : Nat) : Nat :=
  if page < total then page + 1 else page

/-- Line 219: `export_data = filtered_annotations[:N_DISPLAY]` (applied to
the already truncated display list). -/
def export_data (cfg : FilterConfig) (anns : List Entry) : List Entry :=
  (displayed_annotations cfg anns).take N_DISPLAY

/-- One CSV data row (lines 224-235): the fixed columns extracted from a
record.  The three volume cells carry the raw stored values. -/
structure CsvRow where
  story_id : String
  part : Nat
  author : Option String
  title : Option String
  year : Option Int
  text : String
  sound_type : String
  volume_human : RawVal
  volume_nature : RawVal
  volume_artificial : RawVal
  deriving DecidableEq

/-- Builds one CSV row (lines 224-235).  `e["annotations"]["paragraph_level"]
["sound_type"]` and the volume cells use direct indexing, which raises
`KeyError` when a key is absent; `none` models that raised error.
`meta.get("author")` and friends default to null. -/
def row_of (e : Entry) : Option CsvRow :=
  match e.annotations.bind AnnotationBlock.paragraph_level with
  | none => none
  | some pl =>
    match pl.sound_type, pl.volume with
    | some st, some vol =>
      match vol.human, vol.nature, vol.artificial with
      | some vh, some vn, some va =>
        some { story_id := e.story_id
               part := e.part
               author := e.metadata.bind Metadata.author
               title := e.metadata.bind Metadata.title
               year := e.metadata.bind Metadata.year
               text := e.text
               sound_type := st
               volume_human := vh
               volume_nature := vn
               volume_artificial := va }
      | _, _, _ => none
    | _, _ => none

/-- The `rows` loop of lines 221-235: builds every CSV data row in input
order; a `KeyError` on any record aborts the whole export. -/
def csv_rows : List Entry → Option (List CsvRow)
  | [] => some []
  | e :: es =>
    match row_of e, csv_rows es with
    | some r, some rs => some (r :: rs)
    | _, _ => none

/-- Escapes a string for inclusion in a JSON literal, as `json.dumps`
does with `ensure_ascii=False` (non-ASCII characters stay unescaped). -/
def json_escape (s : String) : String :=
  s.foldl
    (fun acc c =>
      if c = '"' then acc ++ "\\\""
      else if c = '\\' then acc ++ "\\\\"
      else if c = '\n' then acc ++ "\\n"
      else if c = '\t' then acc ++ "\\t"
      else if c = '\r' then acc ++ "\\r"
      else acc.push c)
    ""

/-- A JSON string literal. -/
def json_str (s : String) : String := "\"" ++ json_escape s ++ "\""

/-- An optional string serialized as a JSON string or null. -/
def json_opt_str : Option String → String
  | none => "null"
  | some s => json_str s

/-- An optional integer serialized as a JSON number or null. -/
def json_opt_int : Option Int → String
  | none => "null"
  | some n => toString n

/-- A raw volume value serialized back to JSON. -/
def json_raw : RawVal → String
  | .vint n => toString n
  | .vstr s => json_str s
  | .vnull => "null"

/-- The metadata block serialized to JSON (keys absent from the original
object render as null here; only the one-object-per-line structure
matters for the export claims). -/
def metadata_to_json : Option Metadata → String
  | none => "null"
  | some m =>
    "\x7b\"author\": " ++ json_opt_str m.author ++
    ", \"title\": " ++ json_opt_str m.title ++
    ", \"year\": " ++ json_opt_int m.year ++ "\x7d"

/-- One token tag serialized to JSON. -/
def token_to_json (t : Token) : String :=
  "\x7b\"text\": " ++ json_str t.text ++
  ", \"lemma\": " ++ json_str t.lemma_ ++
  ", \"labels\": [" ++ String.intercalate ", " (t.labels.map json_str) ++
  "], \"start\": " ++ toString t.start ++
  ", \"end\": " ++ toString t.stop ++ "\x7d"

/-- The paragraph-level block serialized to JSON. -/
def para_level_to_json : Option ParaLevel → String
  | none => "null"
  | some pl =>
    "\x7b\"sound_type\": " ++ json_opt_str pl.sound_type ++
    ", \"volume\": " ++
    (match pl.volume with
     | none => "null"
     | some v =>
       "\x7b\"human\": " ++ json_raw (v.human.getD .vnull) ++
       ", \"nature\": " ++ json_raw (v.nature.getD .vnull) ++
       ", \"artificial\": " ++ json_raw (v.artificial.getD .vnull) ++ "\x7d") ++
    "\x7d"

/-- The annotations block serialized to JSON. -/
def annotation_block_to_json : Option AnnotationBlock → String
  | none => "null"
  | some a =>
    "\x7b\"token_level\": " ++
    (match a.token_level with
     | none => "null"
     | some tl =>
       "\x7b\"labels\": [" ++
       String.intercalate ", " ((tl.labels.getD []).map token_to_json) ++
       "]\x7d") ++
    ", \"paragraph_level\": " ++ para_level_to_json a.paragraph_level ++ "\x7d"

/-- `json.dumps(item, ensure_ascii=False)` (line 241) for one record. -/
def entry_to_jsonl (e : Entry) : String :=
  "\x7b\"story_id\": " ++ json_str e.story_id ++
  ", \"part\": " ++ toString e.part ++
  ", \"text\": " ++ json_str e.text ++
  ", \"lemmatized_text\": " ++ json_str e.lemmatized_text ++
  ", \"metadata\": " ++ metadata_to_json e.metadata ++
  ", \"annotations\": " ++ annotation_block_to_json e.annotations ++ "\x7d"

/-- The list of JSON lines of the export; line 241 joins them. -/
def jsonl_lines (ex : List Entry) : List String :=
  ex.map entry_to_jsonl

/-- Line 241: `"\n".join(json.dumps(item, ensure_ascii=False) for item in
export_data)`. -/
def jsonl_data (ex : List Entry) : String :=
  String.intercalate "\n" (jsonl_lines ex)

/-- One row of the word-frequency table (the `sound_cats_lemmas_w_freqs.csv`
dataframe): `category`, `lemma` (a Lean keyword, hence `lemma_`), `freq`. -/
structure FrequencyRow where
  category : String
  lemma_ : String
  freq : Int
  deriving DecidableEq

/-- Line 267: `filtered_df = df[df['category'] == selected_category]`. -/
def category_rows (rows : List FrequencyRow) (cat : String) : List FrequencyRow :=
  rows.filter (fun r => r.category == cat)

/-- Python `dict(pairs)` lookup semantics: the value of the LAST pair with
the given key (later insertions overwrite earlier ones). -/
def dict_of_pairs : List (String × Int) → String → Option Int
  | [], _ => none
  | (k, v) :: rest, key =>
    match dict_of_pairs rest key with
    | some v2 => some v2
    | none => if key == k then some v else none

/-- Line 270: `word_freq = dict(zip(filtered_df['lemma'], filtered_df['freq']))`,
as a lookup function. -/
def word_freq (rows : List FrequencyRow) (cat : String) : String → Option Int :=
  dict_of_pairs ((category_rows rows cat).map (fun r => (r.lemma_, r.freq)))

/-- The outcome of the word-cloud section: either a rendering from a
lemma-to-frequency mapping, or the "No words yet :(" state. -/
inductive WordcloudView where
  | rendered (freqs : String → Option Int)
  | no_data

/-- Lines 267-283: `if not filtered_df.empty:` render from `word_freq`,
`else` show the no-data warning. -/
def wordcloud_view (rows : List FrequencyRow) (cat : String) : WordcloudView :=
  if (category_rows rows cat).isEmpty then .no_data
  else .rendered (word_freq rows cat)

/-- The default sidebar configuration: all three sound types selected, no
label selection, full volume ranges, a concrete year span. -/
def cfg_all : FilterConfig :=
  { year_start := 1900
    year_end := 2000
    selected_sound_types := ["d", "nd", "dnd"]
    selected_labels := []
    volume_human := (0, 4)
    volume_nature := (0, 4)
    volume_artificial := (0, 4) }

/-- A fully populated example record. -/
def entry_full : Entry :=
  { story_id := "s1"
    part := 1
    text := "шум дождя"
    lemmatized_text := "шум дождь"
    metadata := some { author := some "A. Chekhov", title := some "Rain", year := some 1950 }
    annotations := some
      { token_level := some { labels := some [{ text := "шум", lemma_ := "шум", labels := ["nature"], start := 0, stop := 3 }] }
        paragraph_level := some
          { sound_type := some "d"
            volume := some { human := some (.vint 2), nature := some (.vint 0), artificial := some (.vint 1) } } } }

/-- `entry_full` with the `year` key removed from its metadata. -/
def entry_no_year : Entry :=
  { entry_full with
    metadata := some { author := some "A. Chekhov", title := some "Rain", year := none } }

/-- `entry_full` with the `sound_type` key removed. -/
def entry_no_sound : Entry :=
  { entry_full with
    annotations := some
      { token_level := some { labels := some [{ text := "шум", lemma_ := "шум", labels := ["nature"], start := 0, stop := 3 }] }
        paragraph_level := some
          { sound_type := none
            volume := some { human := some (.vint 2), nature := some (.vint 0), artificial := some (.vint 1) } } } }

/-- `entry_full` with sound type nd. -/
def entry_nd : Entry :=
  { entry_full with
    annotations := some
      { token_level := some { labels := some [{ text := "шум", lemma_ := "шум", labels := ["nature"], start := 0, stop := 3 }] }
        paragraph_level := some
          { sound_type := some "nd"
            volume := some { human := some (.vint 2), nature := some (.vint 0), artificial := some (.vint 1) } } } }

/-- `cfg_all` with the sound-type selection emptied (the code treats this
as no restriction). -/
def cfg_empty_sound : FilterConfig :=
  { cfg_all with selected_sound_types := [] }

/-- `cfg_empty_sound` widened to the superset selection containing only
the type d. -/
def cfg_only_d : FilterConfig :=
  { cfg_empty_sound with selected_sound_types := ["d"] }

/-- C2 counterexample: with no matching records the pagination controller
computes 0 total pages, not max(1, 0) = 1 as the claim states. -/
theorem total_pages_empty_ne_claim :
    ¬ (total_pages (displayed_annotations cfg_all []) =
        max 1 (filtered_annotations cfg_all []).length) := by
  decide

/-- C2 (amended): the total page count computed by the pagination
controller equals min(20, len(filtered)): the page count of the display
list, which is the filtered list truncated to 20 records, with no lower
floor of 1 (an empty filtered sequence yields 0 pages). -/
theorem total_pages_eq_min_display (cfg : FilterConfig) (anns : List Entry) :
    total_pages (displayed_annotations cfg anns) =
      min N_DISPLAY (filtered_annotations cfg anns).length := by
  simp [total_pages, displayed_annotations, PAGE_SIZE, List.length_take,
    Nat.div_one, Nat.mod_one]

/-- C5: a record whose metadata lacks a year value is excluded by
`paragraph_matches_filters` under every filter configuration. -/
theorem missing_year_always_excluded (cfg : FilterConfig) (e : Entry)
    (h : year_of e = none) :
    paragraph_matches_filters cfg e = false := by
  simp [paragraph_matches_filters, year_passes, h]

/-- Witness for C5 at a concrete record and the default configuration. -/
theorem missing_year_always_excluded_witness :
    year_of entry_no_year = none ∧
    paragraph_matches_filters cfg_all entry_no_year = false :=
  ⟨rfl, missing_year_always_excluded cfg_all entry_no_year rfl⟩

/-- C6: the pagination step relation is a no-op at both boundaries
(previous at page 1, next at the last page), and a page within
[1, total_pages] stays within [1, total_pages] under either step. -/
theorem pagination_steps_respect_bounds (page total : Nat)
    (h1 : 1 ≤ page) (h2 : page ≤ total) :
    prev_click 1 = 1 ∧ next_click total total = total ∧
    (1 ≤ prev_click page ∧ prev_click page ≤ total) ∧
    (1 ≤ next_click total page ∧ next_click total page ≤ total) := by
  refine ⟨?_, ?_, ⟨?_, ?_⟩, ⟨?_, ?_⟩⟩ <;>
    simp only [prev_click, next_click] <;> split <;> omega

/-- Witness for C6 at page 2 of 3. -/
theorem pagination_steps_respect_bounds_witness :
    1 ≤ 2 ∧ 2 ≤ 3 ∧
    (prev_click 1 = 1 ∧ next_click 3 3 = 3 ∧
      (1 ≤ prev_click 2 ∧ prev_click 2 ≤ 3) ∧
      (1 ≤ next_click 3 2 ∧ next_click 3 2 ≤ 3)) :=
  ⟨by decide, by decide, pagination_steps_respect_bounds 2 3 (by decide) (by decide)⟩

/-- Whether Python `int(value)` raises for this raw value: it does for a
null and for a string that does not parse as a decimal integer. -/
def cannot_parse : RawVal → Bool
  | .vint _ => false
  | .vstr s => (s.toInt?).isNone
  | .vnull => true

/-- C7: a volume value that cannot be parsed as an integer is treated as
0 by `safe_int`, and then a volume-range predicate accepts it exactly
when the range contains 0. -/
theorem unparseable_volume_is_zero (v : RawVal) (lo hi : Int)
    (h : cannot_parse v = true) :
    safe_int v = 0 ∧
    (volume_in (lo, hi) (safe_int v) = true ↔ lo ≤ 0 ∧ 0 ≤ hi) := by
  have h0 : safe_int v = 0 := by
    cases v with
    | vint n => simp [cannot_parse] at h
    | vstr s =>
      simp only [cannot_parse, Option.isNone_iff_eq_none] at h
      simp [safe_int, h]
    | vnull => rfl
  refine ⟨h0, ?_⟩
  rw [h0]
  simp [volume_in]

/-- Witness for C7 at a null volume value and the full slider range. -/
theorem unparseable_volume_is_zero_witness :
    cannot_parse RawVal.vnull = true ∧
    (safe_int RawVal.vnull = 0 ∧
      (volume_in (0, 4) (safe_int RawVal.vnull) = true ↔ (0 : Int) ≤ 0 ∧ (0 : Int) ≤ 4)) :=
  ⟨rfl, unparseable_volume_is_zero RawVal.vnull 0 4 rfl⟩

/-- C9: a record lacking a paragraph-level sound type is excluded whenever
the sound-type selection is non-empty (the default all-three selection
included). -/
theorem missing_sound_type_excluded (cfg : FilterConfig) (e : Entry)
    (h1 : sound_type_of e = none) (h2 : cfg.selected_sound_types ≠ []) :
    paragraph_matches_filters cfg e = false := by
  have hs : sound_type_passes cfg.selected_sound_types (sound_type_of e) = false := by
    rw [h1]
    cases hsel : cfg.selected_sound_types with
    | nil => exact absurd hsel h2
    | cons a l => simp [sound_type_passes, opt_mem]
  simp [paragraph_matches_filters, hs]

/-- Witness for C9 at a concrete record under the default all-three
selection. -/
theorem missing_sound_type_excluded_witness :
    sound_type_of entry_no_sound = none ∧
    cfg_all.selected_sound_types ≠ [] ∧
    paragraph_matches_filters cfg_all entry_no_sound = false :=
  ⟨rfl, by decide,
    missing_sound_type_excluded cfg_all entry_no_sound rfl (by decide)⟩

/-- C10: an empty sound-type selection acts as no restriction: the
sound-type predicate passes for every record, a missing sound type
included. -/
theorem empty_sound_selection_passes_all (e : Entry) :
    sound_type_passes [] (sound_type_of e) = true :=
  rfl

/-- When the CSV row loop succeeds, it yields one row per exported record,
in order. -/
theorem csv_rows_sound (l : List Entry) :
    ∀ rs, csv_rows l = some rs →
      rs.length = l.length ∧ l.map row_of = rs.map some := by
  induction l with
  | nil =>
    intro rs h
    simp only [csv_rows, Option.some.injEq] at h
    subst h
    simp
  | cons e es ih =>
    intro rs h
    simp only [csv_rows] at h
    cases hr : row_of e with
    | none => rw [hr] at h; simp at h
    | some r =>
      rw [hr] at h
      cases hes : csv_rows es with
      | none => rw [hes] at h; simp at h
      | some rs2 =>
        rw [hes] at h
        simp only [Option.some.injEq] at h
        subst h
        obtain ⟨h1, h2⟩ := ih rs2 hes
        simp [h1, h2, hr]

/-- The export slice is the filtered list truncated to 20 records (taking
a 20-prefix twice is taking it once). -/
theorem export_data_eq_take (cfg : FilterConfig) (anns : List Entry) :
    export_data cfg anns = (filtered_annotations cfg anns).take N_DISPLAY := by
  simp [export_data, displayed_annotations, List.take_take]

/-- C4: the JSON-lines export has exactly min(20, len(filtered)) lines,
and whenever the CSV row loop completes (no KeyError), it produces
exactly min(20, len(filtered)) data rows — the header row of `to_csv` is
extra — drawn from the exported records in their original order. -/
theorem export_row_and_line_counts (cfg : FilterConfig) (anns : List Entry) :
    (jsonl_lines (export_data cfg anns)).length =
      min N_DISPLAY (filtered_annotations cfg anns).length ∧
    ∀ rs, csv_rows (export_data cfg anns) = some rs →
      rs.length = min N_DISPLAY (filtered_annotations cfg anns).length ∧
      (export_data cfg anns).map row_of = rs.map some := by
  constructor
  · simp [jsonl_lines, export_data_eq_take, List.length_take]
  · intro rs h
    rw [export_data_eq_take] at h ⊢
    obtain ⟨h1, h2⟩ := csv_rows_sound _ rs h
    refine ⟨?_, h2⟩
    rw [h1, List.length_take]

/-- The CSV row extracted from `entry_full`. -/
def row_full : CsvRow :=
  { story_id := "s1"
    part := 1
    author := some "A. Chekhov"
    title := some "Rain"
    year := some 1950
    text := "шум дождя"
    sound_type := "d"
    volume_human := .vint 2
    volume_nature := .vint 0
    volume_artificial := .vint 1 }

/-- Witness for C4 on a one-record corpus under the default
configuration. -/
theorem export_row_and_line_counts_witness :
    (jsonl_lines (export_data cfg_all [entry_full])).length =
      min N_DISPLAY (filtered_annotations cfg_all [entry_full]).length ∧
    ([row_full].length = min N_DISPLAY (filtered_annotations cfg_all [entry_full]).length ∧
      (export_data cfg_all [entry_full]).map row_of = [row_full].map some) :=
  ⟨(export_row_and_line_counts cfg_all [entry_full]).1,
    (export_row_and_line_counts cfg_all [entry_full]).2 [row_full] rfl⟩

/-- Looking up a key in a Python-style dict built from a pair list returns
the value of the last pair carrying that key. -/
theorem dict_of_pairs_eq_last (ps : List (String × Int)) (key : String) :
    dict_of_pairs ps key = (ps.reverse.find? (fun p => p.1 == key)).map Prod.snd := by
  induction ps with
  | nil => rfl
  | cons p ps ih =>
    obtain ⟨k, v⟩ := p
    simp only [dict_of_pairs, ih, List.reverse_cons, List.find?_append]
    cases hf : ps.reverse.find? (fun q => q.1 == key) with
    | some q => simp [Option.or]
    | none =>
      simp only [Option.or, Option.map]
      by_cases h : key = k
      · subst h
        simp [List.find?]
      · have h2 : (k == key) = false := by
          simp [Ne.symm h]
        simp [List.find?, h, h2]

/-- C8: with a non-empty category match the word cloud is rendered from
the mapping sending each lemma to the frequency of its last matching row
(last-write-wins) and defined on exactly the lemmas of the matching rows;
with no matching rows the no-data state is signalled. -/
theorem wordcloud_mapping_exact (rows : List FrequencyRow) (cat key : String) :
    (category_rows rows cat = [] → wordcloud_view rows cat = WordcloudView.no_data) ∧
    (category_rows rows cat ≠ [] →
      wordcloud_view rows cat = WordcloudView.rendered (word_freq rows cat) ∧
      word_freq rows cat key =
        ((category_rows rows cat).reverse.find? (fun r => r.lemma_ == key)).map
          FrequencyRow.freq ∧
      ((word_freq rows cat key).isSome ↔
        key ∈ (category_rows rows cat).map FrequencyRow.lemma_)) := by
  constructor
  · intro h
    simp [wordcloud_view, h]
  · intro h
    have hkey : word_freq rows cat key =
        ((category_rows rows cat).reverse.find? (fun r => r.lemma_ == key)).map
          FrequencyRow.freq := by
      rw [word_freq, dict_of_pairs_eq_last, ← List.map_reverse, List.find?_map,
        Option.map_map]
      rfl
    refine ⟨?_, hkey, ?_⟩
    · simp [wordcloud_view, h]
    · rw [hkey]
      simp only [Option.isSome_map', List.find?_isSome, List.mem_reverse,
        List.mem_map, beq_iff_eq]

/-- The frequency-table example from the specification. -/
def freq_rows_nature : List FrequencyRow :=
  [{ category := "nature", lemma_ := "ветер", freq := 12 },
   { category := "nature", lemma_ := "дождь", freq := 7 }]

/-- Witness for C8 at the two-row nature table of the specification. -/
theorem wordcloud_mapping_exact_witness :
    wordcloud_view freq_rows_nature "nature" =
      WordcloudView.rendered (word_freq freq_rows_nature "nature") ∧
    word_freq freq_rows_nature "nature" "ветер" =
      ((category_rows freq_rows_nature "nature").reverse.find?
        (fun r => r.lemma_ == "ветер")).map FrequencyRow.freq ∧
    ((word_freq freq_rows_nature "nature" "ветер").isSome ↔
      "ветер" ∈ (category_rows freq_rows_nature "nature").map FrequencyRow.lemma_) :=
  (wordcloud_mapping_exact freq_rows_nature "nature" "ветер").2 (by decide)

/-- Widening the year range preserves the year check. -/
theorem year_passes_mono (ys ye ys2 ye2 : Int) (y : Option Int)
    (h1 : ys2 ≤ ys) (h2 : ye ≤ ye2) (h : year_passes ys ye y = true) :
    year_passes ys2 ye2 y = true := by
  cases y with
  | none => simp [year_passes] at h
  | some n =>
    simp only [year_passes, Bool.and_eq_true, decide_eq_true_eq] at h ⊢
    omega

/-- Widening a non-empty sound-type selection preserves the sound check. -/
theorem sound_type_passes_mono (sel sel2 : List String) (st : Option String)
    (hne : sel ≠ []) (hsub : sel ⊆ sel2)
    (h : sound_type_passes sel st = true) :
    sound_type_passes sel2 st = true := by
  have hsel : sel.isEmpty = false := by simp [hne]
  rw [sound_type_passes, hsel] at h
  simp only [Bool.false_eq_true, if_false] at h
  cases st with
  | none => simp [opt_mem] at h
  | some s =>
    simp only [opt_mem, decide_eq_true_eq] at h
    rw [sound_type_passes]
    split
    · rfl
    · simp only [opt_mem, decide_eq_true_eq]
      exact hsub h

/-- Widening a volume range preserves the volume check. -/
theorem volume_in_mono (r r2 : Int × Int) (v : Int)
    (h1 : r2.1 ≤ r.1) (h2 : r.2 ≤ r2.2) (h : volume_in r v = true) :
    volume_in r2 v = true := by
  simp only [volume_in, Bool.and_eq_true, decide_eq_true_eq] at h ⊢
  omega

/-- Widening a non-empty label selection preserves the label check. -/
theorem labels_pass_mono (sel sel2 pl : List String)
    (hne : sel ≠ []) (hsub : sel ⊆ sel2)
    (h : labels_pass sel pl = true) :
    labels_pass sel2 pl = true := by
  have hsel : sel.isEmpty = false := by simp [hne]
  rw [labels_pass, hsel] at h
  simp only [Bool.false_eq_true, if_false, List.any_eq_true,
    decide_eq_true_eq] at h
  obtain ⟨l, hl, hlp⟩ := h
  rw [labels_pass]
  split
  · rfl
  · simp only [List.any_eq_true, decide_eq_true_eq]
    exact ⟨l, hsub hl, hlp⟩

/-- C3 counterexample: the claim allows widening the sound-type selection
from the empty selection (a subset of every selection), but the code
treats the empty selection as no restriction, so this widening removes
a record: an nd paragraph matches the empty selection and not the
superset selection containing only d. -/
theorem widened_sound_selection_loses_record :
    cfg_empty_sound.selected_sound_types ⊆ cfg_only_d.selected_sound_types ∧
    cfg_only_d = { cfg_empty_sound with selected_sound_types := ["d"] } ∧
    paragraph_matches_filters cfg_empty_sound entry_nd = true ∧
    paragraph_matches_filters cfg_only_d entry_nd = false :=
  ⟨List.nil_subset _, rfl, by decide, by decide⟩

/-- C3 (amended): filtering is monotone in each single dimension, with
the sound-type widening — like the label widening — restricted to a
non-empty narrower selection (the code treats an empty selection as no
restriction, so widening from it can remove records): every record
matching the narrower configuration matches the wider one, and pointwise
monotonicity makes the wider filtered list a superset. -/
theorem filtering_monotone_per_dimension (cfg : FilterConfig) (e : Entry) :
    (∀ ys ye, ys ≤ cfg.year_start → cfg.year_end ≤ ye →
      paragraph_matches_filters cfg e = true →
      paragraph_matches_filters { cfg with year_start := ys, year_end := ye } e = true) ∧
    (∀ sel, cfg.selected_sound_types ≠ [] → cfg.selected_sound_types ⊆ sel →
      paragraph_matches_filters cfg e = true →
      paragraph_matches_filters { cfg with selected_sound_types := sel } e = true) ∧
    (∀ lo hi, lo ≤ cfg.volume_human.1 → cfg.volume_human.2 ≤ hi →
      paragraph_matches_filters cfg e = true →
      paragraph_matches_filters { cfg with volume_human := (lo, hi) } e = true) ∧
    (∀ lo hi, lo ≤ cfg.volume_nature.1 → cfg.volume_nature.2 ≤ hi →
      paragraph_matches_filters cfg e = true →
      paragraph_matches_filters { cfg with volume_nature := (lo, hi) } e = true) ∧
    (∀ lo hi, lo ≤ cfg.volume_artificial.1 → cfg.volume_artificial.2 ≤ hi →
      paragraph_matches_filters cfg e = true →
      paragraph_matches_filters { cfg with volume_artificial := (lo, hi) } e = true) ∧
    (∀ sel, cfg.selected_labels ≠ [] → cfg.selected_labels ⊆ sel →
      paragraph_matches_filters cfg e = true →
      paragraph_matches_filters { cfg with selected_labels := sel } e = true) ∧
    (∀ (cfg2 : FilterConfig) (anns : List Entry),
      (∀ x : Entry, paragraph_matches_filters cfg x = true →
        paragraph_matches_filters cfg2 x = true) →
      ∀ r ∈ filtered_annotations cfg anns, r ∈ filtered_annotations cfg2 anns) := by
  refine ⟨?_, ?_, ?_, ?_, ?_, ?_, ?_⟩
  · intro ys ye h1 h2 hm
    simp only [paragraph_matches_filters, Bool.and_eq_true, and_assoc] at hm ⊢
    obtain ⟨hy, hs, hv1, hv2, hv3, hl⟩ := hm
    exact ⟨year_passes_mono _ _ _ _ _ h1 h2 hy, hs, hv1, hv2, hv3, hl⟩
  · intro sel hne hsub hm
    simp only [paragraph_matches_filters, Bool.and_eq_true, and_assoc] at hm ⊢
    obtain ⟨hy, hs, hv1, hv2, hv3, hl⟩ := hm
    exact ⟨hy, sound_type_passes_mono _ _ _ hne hsub hs, hv1, hv2, hv3, hl⟩
  · intro lo hi h1 h2 hm
    simp only [paragraph_matches_filters, Bool.and_eq_true, and_assoc] at hm ⊢
    obtain ⟨hy, hs, hv1, hv2, hv3, hl⟩ := hm
    exact ⟨hy, hs, volume_in_mono _ _ _ h1 h2 hv1, hv2, hv3, hl⟩
  · intro lo hi h1 h2 hm
    simp only [paragraph_matches_filters, Bool.and_eq_true, and_assoc] at hm ⊢
    obtain ⟨hy, hs, hv1, hv2, hv3, hl⟩ := hm
    exact ⟨hy, hs, hv1, volume_in_mono _ _ _ h1 h2 hv2, hv3, hl⟩
  · intro lo hi h1 h2 hm
    simp only [paragraph_matches_filters, Bool.and_eq_true, and_assoc] at hm ⊢
    obtain ⟨hy, hs, hv1, hv2, hv3, hl⟩ := hm
    exact ⟨hy, hs, hv1, hv2, volume_in_mono _ _ _ h1 h2 hv3, hl⟩
  · intro sel hne hsub hm
    simp only [paragraph_matches_filters, Bool.and_eq_true, and_assoc] at hm ⊢
    obtain ⟨hy, hs, hv1, hv2, hv3, hl⟩ := hm
    exact ⟨hy, hs, hv1, hv2, hv3, labels_pass_mono _ _ _ hne hsub hl⟩
  · intro cfg2 anns himp r hr
    simp only [filtered_annotations, List.mem_filter] at hr ⊢
    exact ⟨hr.1, himp r hr.2⟩

/-- Witness for C3 (amended): widening the year range and widening the
all-three sound-type selection at a concrete record. -/
theorem filtering_monotone_per_dimension_witness :
    paragraph_matches_filters { cfg_all with year_start := 1880, year_end := 2010 } entry_full = true ∧
    paragraph_matches_filters { cfg_all with selected_sound_types := ["d", "nd", "dnd", "mixed"] } entry_full = true :=
  ⟨(filtering_monotone_per_dimension cfg_all entry_full).1 1880 2010
      (by decide) (by decide) (by decide),
   (filtering_monotone_per_dimension cfg_all entry_full).2.1 ["d", "nd", "dnd", "mixed"]
      (by decide) (by decide) (by decide)⟩
